import Mathlib

/-!
Shallow embedding of `src/vm_diskcheck.py` (class `VMDiskChecker` and the
exit-code decision of `main`).  Strings are modelled by Lean `String`,
Python `int` by `Int`, the remote transport (`subprocess.run` of the ssh
command) by an opaque function `HostRecord → CommandOutcome`, and Python
dictionaries holding optional keys by structures with `Option` fields.
-/

/-- Python `str.split` with a separator predicate, keeping empty segments
(the behaviour of `s.split('\n')`). -/
def splitAll (p : Char → Bool) : List Char → List (List Char)
  | [] => [[]]
  | c :: cs =>
    match splitAll p cs with
    | h :: t => if p c then [] :: h :: t else (c :: h) :: t
    | [] => [[]]

/-- Whitespace test used by Python `str.split()` and `str.strip()`. -/
def isSpace (c : Char) : Bool := c.isWhitespace

/-- Python `str.strip()` on a character list: drop whitespace at both ends. -/
def pyStripList (l : List Char) : List Char :=
  ((l.dropWhile isSpace).reverse.dropWhile isSpace).reverse

/-- Python `str.strip()`. -/
def pyStrip (s : String) : String := String.mk (pyStripList s.data)

/-- Python `s.rstrip('%')` on a character list: drop every trailing `'%'`. -/
def rstripPctList (l : List Char) : List Char :=
  (l.reverse.dropWhile (fun c => c == '%')).reverse

/-- Python `s.rstrip('%')`. -/
def rstripPct (s : String) : String := String.mk (rstripPctList s.data)

/-- Decimal value of a digit-character list. -/
def digitsVal (l : List Char) : Nat :=
  l.foldl (fun n c => 10 * n + (c.toNat - 48)) 0

/-- A non-empty all-decimal-digit character list. -/
def isIntDigits (l : List Char) : Bool := !l.isEmpty && l.all Char.isDigit

/-- Python `int(s)` (base 10) on a character list: optional sign followed by
decimal digits; anything else raises `ValueError`, modelled as `none`. -/
def pyIntList : List Char → Option Int
  | [] => none
  | c :: cs =>
    if c == '-' then
      if isIntDigits cs then some (-(digitsVal cs : Int)) else none
    else if c == '+' then
      if isIntDigits cs then some ((digitsVal cs : Int)) else none
    else
      if isIntDigits (c :: cs) then some ((digitsVal (c :: cs) : Int)) else none

/-- Python `int(s)` (base 10). -/
def pyInt (s : String) : Option Int := pyIntList s.data

/-- Python `line.split()`: split on whitespace runs, dropping empty tokens. -/
def tokenize (line : String) : List String :=
  ((splitAll isSpace line.data).filter (fun t => !t.isEmpty)).map String.mk

/-- Python `stdout.strip().split('\n')` from `check_vm_disk`. -/
def pyLines (stdout : String) : List String :=
  (splitAll (fun c => c == '\n') (pyStripList stdout.data)).map String.mk

/-- One parsed disk line: the dictionary appended to `disks`
(src/vm_diskcheck.py lines 113-121). -/
structure FilesystemEntry where
  device : String
  size : String
  used : String
  available : String
  usage_percent : Int
  mount : String
  warning : Bool
deriving DecidableEq

/-- `parts = parts[-6:]` (src/vm_diskcheck.py lines 110-111), applied only
when the line has more than 6 tokens. -/
def sliceLast6 (parts : List String) : List String :=
  if 6 < parts.length then parts.drop (parts.length - 6) else parts

/-- The body of the per-line parse (src/vm_diskcheck.py lines 102-121) on the
token list of one line: require at least 6 tokens, parse `parts[4]` (of the
original tokenization) as the usage percentage after stripping trailing `'%'`,
then re-slice to the last 6 tokens when there are more than 6, and build the
entry.  `none` models the `continue` taken on less than 6 tokens or a
`ValueError` from `int`. -/
def parseTokens (threshold : Int) (parts : List String) : Option FilesystemEntry :=
  if 6 ≤ parts.length then
    match pyInt (rstripPct (parts.getD 4 (String.mk []))) with
    | none => none
    | some usage_percent =>
      some { device := (sliceLast6 parts).getD 0 (String.mk []),
             size := (sliceLast6 parts).getD 1 (String.mk []),
             used := (sliceLast6 parts).getD 2 (String.mk []),
             available := (sliceLast6 parts).getD 3 (String.mk []),
             usage_percent := usage_percent,
             mount := (sliceLast6 parts).getD 5 (String.mk []),
             warning := decide (threshold ≤ usage_percent) }
  else none

/-- One iteration of the `for line in ...` loop: the `if line:` guard followed
by the tokenization and per-line parse. -/
def parseRawLine (threshold : Int) (line : String) : Option FilesystemEntry :=
  if line.isEmpty then none else parseTokens threshold (tokenize line)

/-- The whole parsing loop over a list of lines (src/vm_diskcheck.py
lines 99-125): malformed lines contribute nothing. -/
def parseLines (threshold : Int) (lines : List String) : List FilesystemEntry :=
  lines.filterMap (parseRawLine threshold)

/-- Parsing of a whole `result.stdout` string. -/
def parseOutput (threshold : Int) (stdout : String) : List FilesystemEntry :=
  parseLines threshold (pyLines stdout)

/-- One `vm` dictionary from the YAML configuration.  `none` models an absent
key (the spec's HostRecord: every field but the connection parameters is
optional; defaults are applied inside `check_vm_disk`). -/
structure HostRecord where
  name : Option String
  host : Option String
  user : Option String
  port : Option Nat
  ssh_key : Option String
deriving DecidableEq

/-- Result of running the ssh command via `subprocess.run`: normal return with
exit code 0, normal return with a non-zero exit code and captured stderr,
`subprocess.TimeoutExpired`, or any other exception with its message. -/
inductive CommandOutcome where
  | ok (stdout : String)
  | nonZeroExit (stderr : String)
  | timeout
  | otherFailure (message : String)
deriving DecidableEq

/-- The dictionary returned by `check_vm_disk`: either
`{'status': 'success', 'disks': ...}` or `{'status': 'error', 'error': ...}`,
each also carrying `name` and `host`. -/
inductive HostResult where
  | success (name host : String) (disks : List FilesystemEntry)
  | error (name host errMsg : String)
deriving DecidableEq

/-- Python truthiness of an optional string: `None` and `''` are falsy. -/
def pyTruthy : Option String → Bool
  | none => false
  | some s => !s.isEmpty

/-- `vm.get('name', host)` (src/vm_diskcheck.py line 58). -/
def getName (vm : HostRecord) : Option String :=
  match vm.name with
  | some s => some s
  | none => vm.host

/-- `name or 'Unknown'` (src/vm_diskcheck.py line 64). -/
def orUnknown : Option String → String
  | none => "Unknown"
  | some s => if s.isEmpty then "Unknown" else s

/-- `vm.get('name', host)` in the branch where `host` is the string `h`. -/
def effName (vm : HostRecord) (h : String) : String :=
  match vm.name with
  | some s => s
  | none => h

/-- `VMDiskChecker.check_vm_disk` (src/vm_diskcheck.py lines 45-147).  The
ssh invocation is the opaque `runner`; `threshold` is `self.threshold`.
The missing-host validation precedes any use of `runner`; the outcome of the
`subprocess.run` call is mapped to a result dictionary exactly as in the
source, with the stdout of a zero-exit run parsed by the loop above. -/
def check_vm_disk (runner : HostRecord → CommandOutcome) (threshold : Int)
    (vm : HostRecord) : HostResult :=
  match vm.host with
  | none => HostResult.error (orUnknown (getName vm)) ("N/A")
      ("Missing required parameter: host")
  | some h =>
    if h.isEmpty then
      HostResult.error (orUnknown (getName vm)) ("N/A")
        ("Missing required parameter: host")
    else
      match runner vm with
      | CommandOutcome.ok out =>
          HostResult.success (effName vm h) h (parseOutput threshold out)
      | CommandOutcome.nonZeroExit err =>
          HostResult.error (effName vm h) h
            (if (pyStrip err).isEmpty then "Connection failed" else pyStrip err)
      | CommandOutcome.timeout =>
          HostResult.error (effName vm h) h ("Connection timeout")
      | CommandOutcome.otherFailure msg =>
          HostResult.error (effName vm h) h msg

/-- `VMDiskChecker.check_all_vms` (src/vm_diskcheck.py lines 149-156): probe
each configured record in order and collect the results (`check_vm_disk`
always returns a dictionary, so the truthiness guard on `result` never
filters anything). -/
def check_all_vms (runner : HostRecord → CommandOutcome) (threshold : Int) :
    List HostRecord → List HostResult
  | [] => []
  | vm :: rest =>
      check_vm_disk runner threshold vm :: check_all_vms runner threshold rest

/-- `r['status'] == 'error'`. -/
def statusIsError : HostResult → Bool
  | HostResult.error .. => true
  | HostResult.success .. => false

/-- `r['status'] == 'success'`. -/
def statusIsSuccess : HostResult → Bool
  | HostResult.success .. => true
  | HostResult.error .. => false

/-- `any(d['warning'] for d in r['disks'])` on a success result; an error
result has no `disks` key (the `and` in the source short-circuits first). -/
def hasFlagged : HostResult → Bool
  | HostResult.success _ _ disks => disks.any (fun d => d.warning)
  | HostResult.error .. => false

/-- `VMDiskChecker.get_summary` (src/vm_diskcheck.py lines 189-202):
`(total, warnings, errors)`. -/
def get_summary (results : List HostResult) : Nat × Nat × Nat :=
  (results.length,
   results.countP (fun r => statusIsSuccess r && hasFlagged r),
   results.countP statusIsError)

/-- The exit-code decision at the end of `main`
(src/vm_diskcheck.py lines 262-269). -/
def exit_code (results : List HostResult) : Nat :=
  let s := get_summary results
  if 0 < s.2.2 then 2 else if 0 < s.2.1 then 1 else 0

/-- The name field described by the amended missing-host claim: the record's
name when it is present and non-empty, otherwise `"Unknown"`. -/
def nameSpec (vm : HostRecord) : String :=
  match vm.name with
  | some s => if s.isEmpty then "Unknown" else s
  | none => "Unknown"

/-- A well-formed token list of a `df` line sitting exactly at an 80 percent
threshold; used to instantiate parser theorems. -/
def sampleTokens80 : List String := ["/dev/sda1", "100G", "45G", "50G", "80%", "/"]

/-- The entry `parseTokens 80 sampleTokens80` produces. -/
def sampleEntry80 : FilesystemEntry :=
  { device := "/dev/sda1", size := "100G", used := "45G", available := "50G",
    usage_percent := 80, mount := "/", warning := true }

/-- A configured record with a name and a host; used to instantiate the
probe theorems. -/
def sampleVm : HostRecord :=
  { name := some "web-01", host := some "10.0.0.5", user := none, port := none,
    ssh_key := none }

/-! ### Helper lemmas about the per-line parse -/

theorem parseTokens_usage (threshold : Int) (ts : List String) (e : FilesystemEntry)
    (hp : parseTokens threshold ts = some e) :
    pyInt (rstripPct (ts.getD 4 (String.mk []))) = some e.usage_percent ∧
    e.warning = decide (threshold ≤ e.usage_percent) := by
  unfold parseTokens at hp
  by_cases h6 : 6 ≤ ts.length
  · rw [if_pos h6] at hp
    cases hv : pyInt (rstripPct (ts.getD 4 (String.mk []))) with
    | none => rw [hv] at hp; exact absurd hp (by simp)
    | some v =>
      rw [hv] at hp
      simp only [Option.some.injEq] at hp
      subst hp
      exact ⟨rfl, rfl⟩
  · rw [if_neg h6] at hp
    exact absurd hp (by simp)

theorem parseTokens_eq_some_of (threshold : Int) (ts : List String) (v : Int)
    (h6 : 6 ≤ ts.length)
    (hv : pyInt (rstripPct (ts.getD 4 (String.mk []))) = some v) :
    parseTokens threshold ts =
      some { device := (sliceLast6 ts).getD 0 (String.mk []),
             size := (sliceLast6 ts).getD 1 (String.mk []),
             used := (sliceLast6 ts).getD 2 (String.mk []),
             available := (sliceLast6 ts).getD 3 (String.mk []),
             usage_percent := v,
             mount := (sliceLast6 ts).getD 5 (String.mk []),
             warning := decide (threshold ≤ v) } := by
  unfold parseTokens
  rw [if_pos h6, hv]

theorem parseTokens_eq_none (threshold : Int) (ts : List String)
    (h : ts.length < 6 ∨ pyInt (rstripPct (ts.getD 4 (String.mk []))) = none) :
    parseTokens threshold ts = none := by
  unfold parseTokens
  rcases h with h | h
  · rw [if_neg (by omega)]
  · by_cases h6 : 6 ≤ ts.length
    · rw [if_pos h6, h]
    · rw [if_neg h6]

theorem digit_beq_false (c d : Char) (hc : c.isDigit = true) (hd : d.isDigit = false) :
    (c == d) = false := by
  cases h : c == d
  · rfl
  · have : c = d := eq_of_beq h
    subst this
    rw [hc] at hd
    exact Bool.noConfusion hd

theorem dropWhile_pct_replicate (k : Nat) (t : List Char) :
    (List.replicate k '%' ++ t).dropWhile (fun c => c == '%') =
      t.dropWhile (fun c => c == '%') := by
  induction k with
  | zero => rfl
  | succ n ih => simp [List.replicate_succ, List.dropWhile_cons, ih]

theorem rstripPctList_digits (ds : List Char) (k : Nat) (hne : ds ≠ [])
    (hdig : ds.all Char.isDigit = true) :
    rstripPctList (ds ++ List.replicate k '%') = ds := by
  unfold rstripPctList
  rw [List.reverse_append, List.reverse_replicate, dropWhile_pct_replicate]
  cases hrev : ds.reverse with
  | nil => exact absurd (List.reverse_eq_nil_iff.mp hrev) hne
  | cons c r =>
    have hcmem : c ∈ ds := by
      have : c ∈ ds.reverse := by rw [hrev]; exact List.mem_cons_self c r
      exact List.mem_reverse.mp this
    have hc : c.isDigit = true := by
      have := List.all_eq_true.mp hdig c hcmem
      simpa using this
    rw [List.dropWhile_cons, digit_beq_false c '%' hc (by decide)]
    simp only [Bool.false_eq_true, if_false]
    rw [← hrev, List.reverse_reverse]

theorem pyIntList_digits (ds : List Char) (hne : ds ≠ [])
    (hdig : ds.all Char.isDigit = true) :
    pyIntList ds = some ((digitsVal ds : Int)) := by
  cases ds with
  | nil => exact absurd rfl hne
  | cons c cs =>
    have hc : c.isDigit = true := by
      have := List.all_eq_true.mp hdig c (List.mem_cons_self c cs)
      simpa using this
    have hall : isIntDigits (c :: cs) = true := by
      simp [isIntDigits, hdig]
    simp [pyIntList, digit_beq_false c '-' hc (by decide),
          digit_beq_false c '+' hc (by decide), hall]

/-! ### Claim theorems about the parser -/

/-- C1 (code evaluation at the failing input): on a line with more than 6
tokens the code parses the usage percentage from the 5th token of the
original tokenization, before re-slicing to the last 6 tokens.  So the
motivating input — a device name with an embedded space — is skipped
entirely (its original 5th token `"50G"` is not an integer), and on a
7-token line whose original 5th token is a percentage the entry's
`usage_percent` comes from that token (47), not from the 5th of the last 6
tokens (which is `"90%"`). -/
theorem overlong_line_usage_eval :
    parseOutput 80 ("/dev/fancy disk 100G 45G 50G 47% /\n") = [] ∧
    parseTokens 80 ["7", "100G", "45G", "50G", "47%", "90%", "/data"] =
      some { device := "100G", size := "45G", used := "50G", available := "47%",
             usage_percent := 47, mount := "/data", warning := false } := by
  decide

/-- C7: an entry produced by the per-line parse has `warning` set exactly
when its usage percentage is at least the threshold; the boundary is
inclusive — equal to the threshold is flagged, one below is not. -/
theorem threshold_inclusive (threshold : Int) (ts : List String) (e : FilesystemEntry)
    (hp : parseTokens threshold ts = some e) :
    (e.warning = true ↔ threshold ≤ e.usage_percent) ∧
    (e.usage_percent = threshold → e.warning = true) ∧
    (e.usage_percent = threshold - 1 → e.warning = false) := by
  obtain ⟨-, hw⟩ := parseTokens_usage threshold ts e hp
  refine ⟨?_, ?_, ?_⟩
  · rw [hw]; exact decide_eq_true_iff
  · intro h; rw [hw, h]; simp
  · intro h
    rw [hw, h]
    exact decide_eq_false (by omega)

/-- Witness for C7 at a concrete line sitting exactly at the threshold. -/
theorem threshold_inclusive_witness :
    (sampleEntry80.warning = true ↔ (80 : Int) ≤ sampleEntry80.usage_percent) ∧
    (sampleEntry80.usage_percent = 80 → sampleEntry80.warning = true) ∧
    (sampleEntry80.usage_percent = 80 - 1 → sampleEntry80.warning = false) :=
  threshold_inclusive 80 sampleTokens80 sampleEntry80 (by decide)

/-- C8: a line with fewer than 6 tokens, or whose usage token does not parse
as an integer after stripping trailing percent signs, is skipped: parsing the
line list with the malformed line in the middle gives exactly the entries of
the lines before it followed by the entries of the lines after it (and in
particular never fails the whole host — `parseLines` is total). -/
theorem malformed_line_skipped (threshold : Int) (pre post : List String) (bad : String)
    (hbad : (tokenize bad).length < 6 ∨
            pyInt (rstripPct ((tokenize bad).getD 4 (String.mk []))) = none) :
    parseLines threshold (pre ++ bad :: post) =
      parseLines threshold pre ++ parseLines threshold post := by
  have hnone : parseRawLine threshold bad = none := by
    unfold parseRawLine
    by_cases hbe : bad.isEmpty
    · rw [if_pos hbe]
    · rw [if_neg hbe]
      exact parseTokens_eq_none threshold (tokenize bad) hbad
  unfold parseLines
  rw [List.filterMap_append]
  simp [List.filterMap_cons, hnone]

/-- Witness for C8: a short garbage line between two valid `df` lines. -/
theorem malformed_line_skipped_witness :
    parseLines 80
        (["/dev/sda1 100G 45G 50G 47% /"] ++
          "broken line" :: ["/dev/sda2 50G 42G 5G 89% /var"]) =
      parseLines 80 ["/dev/sda1 100G 45G 50G 47% /"] ++
        parseLines 80 ["/dev/sda2 50G 42G 5G 89% /var"] :=
  malformed_line_skipped 80 ["/dev/sda1 100G 45G 50G 47% /"]
    ["/dev/sda2 50G 42G 5G 89% /var"] ("broken line") (Or.inl (by decide))

/-- C9 (counterexample): the parser performs no range check on the usage
percentage, so a raw line with usage token `"150%"` produces an entry whose
`usage_percent` is 150, outside the 0-100 range the claim asserts. -/
theorem usage_range_counterexample :
    parseOutput 80 ("/dev/sda1 100G 45G 50G 150% /") =
      [{ device := "/dev/sda1", size := "100G", used := "45G", available := "50G",
         usage_percent := 150, mount := "/", warning := true }] ∧
    ¬((150 : Int) ≤ 100) := by
  decide

/-- C9 (amended): an entry's `usage_percent` is exactly the integer parsed
from the line's usage token, so it lies in 0-100 whenever that token's value
does; the parser itself imposes no range restriction. -/
theorem usage_range_conditional (threshold : Int) (ts : List String)
    (e : FilesystemEntry) (v : Int)
    (hp : parseTokens threshold ts = some e)
    (hv : pyInt (rstripPct (ts.getD 4 (String.mk []))) = some v)
    (h0 : 0 ≤ v) (h1 : v ≤ 100) :
    0 ≤ e.usage_percent ∧ e.usage_percent ≤ 100 := by
  obtain ⟨hu, -⟩ := parseTokens_usage threshold ts e hp
  rw [hu] at hv
  injection hv with hv
  rw [hv]
  exact ⟨h0, h1⟩

/-- Witness for the amended C9 at a concrete in-range line. -/
theorem usage_range_conditional_witness :
    0 ≤ sampleEntry80.usage_percent ∧ sampleEntry80.usage_percent ≤ 100 :=
  usage_range_conditional 80 sampleTokens80 sampleEntry80 80 (by decide) (by decide)
    (by decide) (by decide)

/-- C10: a line of at least 6 tokens whose usage token is a decimal numeral
followed by any number (possibly zero) of `'%'` signs is accepted, and the
numeral's value is recorded as `usage_percent`: `rstrip('%')` removes every
trailing percent sign and does not require one to be present. -/
theorem usage_token_stripping (threshold : Int) (ts : List String)
    (ds : List Char) (k : Nat)
    (h6 : 6 ≤ ts.length)
    (htok : ts.getD 4 (String.mk []) = String.mk (ds ++ List.replicate k '%'))
    (hne : ds ≠ [])
    (hdig : ds.all Char.isDigit = true) :
    ∃ e, parseTokens threshold ts = some e ∧
      e.usage_percent = ((digitsVal ds : Nat) : Int) := by
  have hv : pyInt (rstripPct (ts.getD 4 (String.mk []))) =
      some ((digitsVal ds : Nat) : Int) := by
    rw [htok]
    show pyIntList (rstripPctList (ds ++ List.replicate k '%')) = _
    rw [rstripPctList_digits ds k hne hdig]
    exact pyIntList_digits ds hne hdig
  exact ⟨_, parseTokens_eq_some_of threshold ts _ h6 hv, rfl⟩

/-- Witness for C10: `"47%%"` (doubled percent sign) parses to 47. -/
theorem usage_token_stripping_witness :
    ∃ e, parseTokens 80 ["/dev/sda1", "100G", "45G", "50G", "47%%", "/"] = some e ∧
      e.usage_percent = ((digitsVal ['4', '7'] : Nat) : Int) :=
  usage_token_stripping 80 ["/dev/sda1", "100G", "45G", "50G", "47%%", "/"]
    ['4', '7'] 2 (by decide) (by decide) (by decide) (by decide)

/-! ### Claim theorems about aggregation and the exit code -/

/-- C2: the summary's total is the number of results, its error count is the
number of error results, its warning count is the number of success results
with at least one flagged entry, and prepending a success result with no
flagged entry changes neither the warning count nor the error count. -/
theorem get_summary_counts (results : List HostResult) :
    (get_summary results).1 = results.length ∧
    (get_summary results).2.2 = (results.filter statusIsError).length ∧
    (get_summary results).2.1 =
      (results.filter (fun r => statusIsSuccess r && hasFlagged r)).length ∧
    ∀ n h ds, ds.all (fun d => !d.warning) = true →
      (get_summary (HostResult.success n h ds :: results)).2.1 =
        (get_summary results).2.1 ∧
      (get_summary (HostResult.success n h ds :: results)).2.2 =
        (get_summary results).2.2 := by
  refine ⟨rfl, ?_, ?_, ?_⟩
  · simp [get_summary, List.countP_eq_length_filter]
  · simp [get_summary, List.countP_eq_length_filter]
  · intro n h ds hall
    have hflag : hasFlagged (HostResult.success n h ds) = false := by
      simp only [hasFlagged, List.any_eq_false]
      intro d hd
      have := List.all_eq_true.mp hall d hd
      simpa using this
    constructor
    · simp [get_summary, List.countP_cons, hflag]
    · simp [get_summary, List.countP_cons, statusIsError]

/-- Witness for C2: a success result whose single entry is not flagged
changes neither the warning count nor the error count of a one-error list. -/
theorem get_summary_counts_witness :
    (get_summary (HostResult.success ("a") ("h1")
        [{ device := "/dev/sda1", size := "100G", used := "45G",
           available := "50G", usage_percent := 47, mount := "/",
           warning := false }] :: [HostResult.error ("b") ("h2") ("boom")])).2.1 =
      (get_summary [HostResult.error ("b") ("h2") ("boom")]).2.1 ∧
    (get_summary (HostResult.success ("a") ("h1")
        [{ device := "/dev/sda1", size := "100G", used := "45G",
           available := "50G", usage_percent := 47, mount := "/",
           warning := false }] :: [HostResult.error ("b") ("h2") ("boom")])).2.2 =
      (get_summary [HostResult.error ("b") ("h2") ("boom")]).2.2 :=
  (get_summary_counts [HostResult.error ("b") ("h2") ("boom")]).2.2.2 ("a") ("h1")
    [{ device := "/dev/sda1", size := "100G", used := "45G", available := "50G",
       usage_percent := 47, mount := "/", warning := false }] (by decide)

/-- C3: the process exit code is 2 when some result is an error, else 1 when
some success result has a flagged filesystem, else 0 — errors dominate
warnings. -/
theorem exit_code_precedence (results : List HostResult) :
    exit_code results =
      (if results.any statusIsError then 2
       else if results.any (fun r => statusIsSuccess r && hasFlagged r) then 1
       else 0) := by
  have hred : exit_code results =
      (if 0 < results.countP statusIsError then 2
       else if 0 < results.countP (fun r => statusIsSuccess r && hasFlagged r) then 1
       else 0) := rfl
  rw [hred]
  have he : (0 < results.countP statusIsError) ↔
      (results.any statusIsError = true) := by
    rw [List.countP_pos_iff, List.any_eq_true]
  have hw : (0 < results.countP (fun r => statusIsSuccess r && hasFlagged r)) ↔
      (results.any (fun r => statusIsSuccess r && hasFlagged r) = true) := by
    rw [List.countP_pos_iff, List.any_eq_true]
  by_cases h1 : results.any statusIsError = true
  · rw [if_pos (he.mpr h1), if_pos h1]
  · rw [if_neg (fun hc => h1 (he.mp hc)), if_neg h1]
    by_cases h2 : results.any (fun r => statusIsSuccess r && hasFlagged r) = true
    · rw [if_pos (hw.mpr h2), if_pos h2]
    · rw [if_neg (fun hc => h2 (hw.mp hc)), if_neg h2]

/-- C4: checking all configured records yields one result per record, in
input order: the lengths agree and the i-th result is the probe of the i-th
record. -/
theorem check_all_vms_order (runner : HostRecord → CommandOutcome) (threshold : Int)
    (vms : List HostRecord) :
    (check_all_vms runner threshold vms).length = vms.length ∧
    ∀ i : Nat, (check_all_vms runner threshold vms)[i]? =
      (vms[i]?).map (check_vm_disk runner threshold) := by
  induction vms with
  | nil => exact ⟨rfl, fun i => by cases i <;> rfl⟩
  | cons vm rest ih =>
    refine ⟨?_, fun i => ?_⟩
    · simp only [check_all_vms, List.length_cons, ih.1]
    · cases i with
      | zero => simp [check_all_vms]
      | succ n =>
        simpa only [check_all_vms, List.getElem?_cons_succ] using ih.2 n

/-! ### Claim theorems about the per-host probe -/

theorem orUnknown_getName (vm : HostRecord) (h : pyTruthy vm.host = false) :
    orUnknown (getName vm) = nameSpec vm := by
  unfold orUnknown getName nameSpec
  cases hn : vm.name with
  | some s => rfl
  | none =>
    cases hh : vm.host with
    | none => rfl
    | some s =>
      rw [hh] at h
      have hs : s.isEmpty = true := by simpa [pyTruthy] using h
      simp [hs]

/-- C5 (counterexample): a record whose name is present but empty and whose
host is absent is reported with name `"Unknown"`, not with the record's
(empty) name as the claim states — `name or 'Unknown'` falls back on any
falsy name, not only on an absent one. -/
theorem missing_host_empty_name_counterexample :
    ¬(check_vm_disk (fun _ => CommandOutcome.timeout) 80
        { name := some (String.mk []), host := none, user := none, port := none,
          ssh_key := none } =
      HostResult.error (String.mk []) ("N/A") ("Missing required parameter: host")) ∧
    check_vm_disk (fun _ => CommandOutcome.timeout) 80
        { name := some (String.mk []), host := none, user := none, port := none,
          ssh_key := none } =
      HostResult.error ("Unknown") ("N/A") ("Missing required parameter: host") := by
  decide

/-- C5 (amended): for a record whose host is absent or empty, the probe
returns a failure with message exactly `"Missing required parameter: host"`,
host field `"N/A"`, and name equal to the record's name when it is present
and non-empty, otherwise `"Unknown"`; the result is identical for any two
transports, so it is produced without consulting the transport. -/
theorem missing_host_failure (runner runner2 : HostRecord → CommandOutcome)
    (threshold : Int) (vm : HostRecord) (h : pyTruthy vm.host = false) :
    check_vm_disk runner threshold vm =
      HostResult.error (nameSpec vm) ("N/A") ("Missing required parameter: host") ∧
    check_vm_disk runner threshold vm = check_vm_disk runner2 threshold vm := by
  have key : ∀ rn : HostRecord → CommandOutcome,
      check_vm_disk rn threshold vm =
        HostResult.error (nameSpec vm) ("N/A")
          ("Missing required parameter: host") := by
    intro rn
    unfold check_vm_disk
    cases hh : vm.host with
    | none =>
      rw [orUnknown_getName vm h]
    | some s =>
      have hs : s.isEmpty = true := by
        rw [hh] at h
        simpa [pyTruthy] using h
      simp [hs, orUnknown_getName vm h]
  exact ⟨key runner, (key runner).trans (key runner2).symm⟩

/-- Witness for the amended C5: empty host string, absent name. -/
theorem missing_host_failure_witness :
    check_vm_disk (fun _ => CommandOutcome.timeout) 80
        { name := none, host := some (String.mk []), user := none, port := none,
          ssh_key := none } =
      HostResult.error
        (nameSpec { name := none, host := some (String.mk []), user := none,
                    port := none, ssh_key := none })
        ("N/A") ("Missing required parameter: host") ∧
    check_vm_disk (fun _ => CommandOutcome.timeout) 80
        { name := none, host := some (String.mk []), user := none, port := none,
          ssh_key := none } =
      check_vm_disk (fun _ => CommandOutcome.ok ("ignored")) 80
        { name := none, host := some (String.mk []), user := none, port := none,
          ssh_key := none } :=
  missing_host_failure (fun _ => CommandOutcome.timeout)
    (fun _ => CommandOutcome.ok ("ignored")) 80
    { name := none, host := some (String.mk []), user := none, port := none,
      ssh_key := none } (by decide)

/-- C6: with a present non-empty host, the probe maps the command outcome to
the host result exactly as the claim states: zero exit to a success with the
parsed entries; non-zero exit to an error carrying the trimmed stderr, or
`"Connection failed"` when the trimmed stderr is empty; a timeout to an error
`"Connection timeout"`; any other failure to an error carrying its message. -/
theorem outcome_mapping (runner : HostRecord → CommandOutcome) (threshold : Int)
    (vm : HostRecord) (h : String) (hh : vm.host = some h) (hne : h ≠ "") :
    (∀ out, runner vm = CommandOutcome.ok out →
      check_vm_disk runner threshold vm =
        HostResult.success (effName vm h) h (parseOutput threshold out)) ∧
    (∀ err, runner vm = CommandOutcome.nonZeroExit err →
      check_vm_disk runner threshold vm =
        HostResult.error (effName vm h) h
          (if (pyStrip err).isEmpty then "Connection failed" else pyStrip err)) ∧
    (runner vm = CommandOutcome.timeout →
      check_vm_disk runner threshold vm =
        HostResult.error (effName vm h) h ("Connection timeout")) ∧
    (∀ msg, runner vm = CommandOutcome.otherFailure msg →
      check_vm_disk runner threshold vm =
        HostResult.error (effName vm h) h msg) := by
  have hie : ¬(h.isEmpty = true) := by
    intro hi
    exact hne ((String.isEmpty_iff _).mp hi)
  refine ⟨fun out hout => ?_, fun err herr => ?_, fun hto => ?_, fun msg hmsg => ?_⟩
  · unfold check_vm_disk
    rw [hh]
    simp only [hout, if_neg hie]
  · unfold check_vm_disk
    rw [hh]
    simp only [herr, if_neg hie]
  · unfold check_vm_disk
    rw [hh]
    simp only [hto, if_neg hie]
  · unfold check_vm_disk
    rw [hh]
    simp only [hmsg, if_neg hie]

/-- Witness for C6 at a concrete record and a transport that times out. -/
theorem outcome_mapping_witness :
    check_vm_disk (fun _ => CommandOutcome.timeout) 80 sampleVm =
      HostResult.error (effName sampleVm ("10.0.0.5")) ("10.0.0.5")
        ("Connection timeout") :=
  (outcome_mapping (fun _ => CommandOutcome.timeout) 80 sampleVm ("10.0.0.5")
    rfl (by decide)).2.2.1 rfl
